import Mathlib

/-!
# Verification of the mikaana vote/comment/forum backend

Shallow embedding of the `api` crate's handlers (`votes.rs`, `comments.rs`,
`forum.rs`, `github_stats.rs`, `auth.rs`) over an explicit database state.
SQLite tables become lists of row structures; each handler becomes a pure
function from the database state (plus request data) to a result and the new
state.  External collaborators (JWT verification, the `ammonia` HTML
sanitizer, the GitHub HTTP fetch) are passed in as opaque function
parameters, exactly as the specification treats them.
-/

namespace Mikaana

/-! ## HTTP status codes (axum `StatusCode` values used by the handlers) -/

def UNAUTHORIZED : Nat := 401
def BAD_REQUEST : Nat := 400
def NOT_FOUND : Nat := 404
def NO_CONTENT : Nat := 204
def INTERNAL_SERVER_ERROR : Nat := 500
def BAD_GATEWAY : Nat := 502

/-! ## Database rows (schema from `db.rs`) -/

/-- A row of the `users` table (columns used by the handlers). -/
structure UserRow where
  id : Int
  username : String
  avatar_url : String
deriving DecidableEq, Repr

/-- A row of the `votes` table.  `UNIQUE(user_id, target_type, target_id)`
holds in any state SQLite can reach. -/
structure VoteRow where
  user_id : Int
  target_type : String
  target_id : Int
  value : Int
deriving DecidableEq, Repr

/-- A row of the `comments` table. -/
structure CommentRow where
  id : Int
  post_slug : String
  user_id : Int
  body : String
  created_at : Nat
deriving DecidableEq, Repr

/-- A row of the `threads` table. -/
structure ThreadRow where
  id : Int
  category_id : Int
  user_id : Int
  title : String
  body : String
  created_at : Nat
deriving DecidableEq, Repr

/-- A row of the `replies` table. -/
structure ReplyRow where
  id : Int
  thread_id : Int
  user_id : Int
  body : String
  created_at : Nat
deriving DecidableEq, Repr

/-- A row of the `categories` table. -/
structure CategoryRow where
  id : Int
  name : String
  slug : String
  description : String
deriving DecidableEq, Repr

/-- The whole SQLite database state. -/
structure Db where
  users : List UserRow
  votes : List VoteRow
  comments : List CommentRow
  threads : List ThreadRow
  replies : List ReplyRow
  categories : List CategoryRow
deriving DecidableEq, Repr

/-! ## Identity resolver (`auth.rs`, `extract_user_id`)

JWT decoding (`jsonwebtoken::decode::<Claims>` with the shared secret,
signature + expiry validation) is an external collaborator; it is passed in
as an opaque `verify` function returning the `sub` user id on success. -/

deriving instance DecidableEq for Except

/-- `headers.get("Authorization") ... strip_prefix("Bearer ")`: yield the
part after the `Bearer ` prefix when present (spelled on the underlying
character list so that it computes by kernel reduction). -/
def stripBearer (s : String) : Option String :=
  if "Bearer ".data.isPrefixOf s.data then some ⟨s.data.drop 7⟩ else none

/-- `auth::extract_user_id`: read the `Authorization` header, strip the
`Bearer ` prefix, verify the token; any failure is `401 UNAUTHORIZED`. -/
def extract_user_id (headers : Option String) (verify : String → Option Int) :
    Except Nat Int :=
  match headers.bind stripBearer with
  | none => .error UNAUTHORIZED
  | some token =>
    match verify token with
    | some uid => .ok uid
    | none => .error UNAUTHORIZED

/-! ## Vote ledger (`votes.rs`) -/

/-- The `WHERE user_id = ?1 AND target_type = ?2 AND target_id = ?3` match. -/
def matchesVote (uid : Int) (tt : String) (tid : Int) (r : VoteRow) : Bool :=
  r.user_id == uid && r.target_type == tt && r.target_id == tid

/-- `SELECT value FROM votes WHERE user_id = ?1 AND target_type = ?2 AND
target_id = ?3` (at most one row by the UNIQUE constraint). -/
def findVote (votes : List VoteRow) (uid : Int) (tt : String) (tid : Int) :
    Option Int :=
  (votes.find? (matchesVote uid tt tid)).map (fun r => r.value)

/-- `SELECT COALESCE(SUM(value), 0) FROM votes WHERE target_type = ?1 AND
target_id = ?2`. -/
def voteSum (votes : List VoteRow) (tt : String) (tid : Int) : Int :=
  ((votes.filter fun r => r.target_type == tt && r.target_id == tid).map
    (fun r => r.value)).sum

/-- The response body of both vote endpoints (`VoteResponse`). -/
structure VoteResponse where
  vote_count : Int
  user_vote : Option Int
deriving DecidableEq, Repr

/-- `GET /api/votes`: auth is optional (`.ok()` turns a failed extraction
into `None`), aggregate is computed first, then the caller's own vote. -/
def get_votes (db : Db) (headers : Option String) (verify : String → Option Int)
    (target_type : String) (target_id : Int) : Except Nat VoteResponse :=
  let user_id := (extract_user_id headers verify).toOption
  let vote_count := voteSum db.votes target_type target_id
  let user_vote := user_id.bind fun uid => findVote db.votes uid target_type target_id
  .ok ⟨vote_count, user_vote⟩

/-- The single SQL write statement of `cast_vote`'s three-way branch, given
the previously read `existing` value.  An `INSERT` that collides with the
`UNIQUE(user_id, target_type, target_id)` constraint fails, which the
handler maps to `500 INTERNAL_SERVER_ERROR`. -/
def castWrite (db : Db) (uid : Int) (tt : String) (tid : Int) (value : Int)
    (existing : Option Int) : Except Nat (Option Int × Db) :=
  match existing with
  | some v =>
    if v = value then
      -- Same vote → remove (toggle off): DELETE
      .ok (none, { db with votes := db.votes.filter (fun r => !(matchesVote uid tt tid r)) })
    else
      -- Different vote → UPDATE value in place
      let updated := db.votes.map
        (fun r => if matchesVote uid tt tid r then { r with value := value } else r)
      .ok (some value, { db with votes := updated })
  | none =>
    -- New vote → INSERT (fails on a UNIQUE-constraint collision)
    if db.votes.any (matchesVote uid tt tid) then
      .error INTERNAL_SERVER_ERROR
    else
      .ok (some value, { db with votes := db.votes ++ [⟨uid, tt, tid, value⟩] })

/-- `POST /api/votes` (`cast_vote`): authenticate, validate
`value ∈ {1, -1}`, read the existing vote, branch-write, recompute the
aggregate. -/
def cast_vote (db : Db) (headers : Option String) (verify : String → Option Int)
    (target_type : String) (target_id : Int) (value : Int) :
    Except Nat VoteResponse × Db :=
  match extract_user_id headers verify with
  | .error e => (.error e, db)
  | .ok user_id =>
    if value ≠ 1 ∧ value ≠ -1 then (.error BAD_REQUEST, db)
    else
      let existing := findVote db.votes user_id target_type target_id
      match castWrite db user_id target_type target_id value existing with
      | .error e => (.error e, db)
      | .ok (user_vote, db') =>
        (.ok ⟨voteSum db'.votes target_type target_id, user_vote⟩, db')

/-! ## Content store: comments (`comments.rs`)

`ammonia::clean` is an external collaborator (opaque sanitizer); every
handler that uses it takes it as the `clean` parameter. -/

/-- Rust `str::trim`: remove leading and trailing whitespace (spelled on the
character list so that it computes by kernel reduction). -/
def rustTrim (s : String) : String :=
  ⟨((s.data.dropWhile Char.isWhitespace).reverse.dropWhile Char.isWhitespace).reverse⟩

/-- Insert into a list kept in ascending key order (`ORDER BY ... ASC`). -/
def insertAscBy (key : α → Nat) (x : α) : List α → List α
  | [] => [x]
  | y :: rest => if key y ≤ key x then y :: insertAscBy key x rest else x :: y :: rest

/-- `ORDER BY key ASC` as an insertion sort. -/
def sortAscBy (key : α → Nat) : List α → List α
  | [] => []
  | y :: rest => insertAscBy key y (sortAscBy key rest)

/-- Insert into a list kept in descending key order (`ORDER BY ... DESC`). -/
def insertDescBy (key : α → Nat) (x : α) : List α → List α
  | [] => [x]
  | y :: rest => if key x ≤ key y then y :: insertDescBy key x rest else x :: y :: rest

/-- `ORDER BY key DESC` as an insertion sort. -/
def sortDescBy (key : α → Nat) : List α → List α
  | [] => []
  | y :: rest => insertDescBy key y (sortDescBy key rest)

/-- `ORDER BY c.created_at ASC` over comment rows. -/
def sortCommentsAsc (l : List CommentRow) : List CommentRow :=
  sortAscBy (fun c => c.created_at) l

/-- The response body for a comment (`mikaana_shared::Comment`). -/
structure Comment where
  id : Int
  post_slug : String
  body : String
  created_at : Nat
  user : UserRow
  vote_count : Int
deriving DecidableEq, Repr

/-- `last_insert_rowid` for an `INSERT` into `comments`: one more than the
largest rowid in the table (AUTOINCREMENT). -/
def nextCommentId (db : Db) : Int :=
  (db.comments.map (fun c => c.id)).foldl max 0 + 1

/-- `GET /api/comments?slug=...` (`list_comments`): comments of the slug in
`created_at ASC` order, each joined with its author and the vote aggregate. -/
def list_comments (db : Db) (slug : String) : Except Nat (List Comment) :=
  let rows := sortCommentsAsc (db.comments.filter (fun c => c.post_slug == slug))
  .ok (rows.filterMap (fun c =>
    (db.users.find? (fun u => u.id == c.user_id)).map (fun u =>
      ⟨c.id, c.post_slug, c.body, c.created_at, u, voteSum db.votes "comment" c.id⟩)))

/-- `POST /api/comments` (`create_comment`): authenticate, sanitize, reject
an empty-after-sanitize body, insert, re-select the created row joined with
its author, `vote_count: 0`. -/
def create_comment (clean : String → String) (db : Db) (headers : Option String)
    (verify : String → Option Int) (post_slug : String) (raw_body : String)
    (now : Nat) : Except Nat Comment × Db :=
  match extract_user_id headers verify with
  | .error e => (.error e, db)
  | .ok user_id =>
    let body := clean raw_body
    if (rustTrim body).data.isEmpty then (.error BAD_REQUEST, db)
    else
      let id := nextCommentId db
      let row : CommentRow := ⟨id, post_slug, user_id, body, now⟩
      let db' := { db with comments := db.comments ++ [row] }
      match db'.comments.find? (fun c => c.id == id), db'.users.find? (fun u => u.id == user_id) with
      | some c, some u => (.ok ⟨c.id, c.post_slug, c.body, c.created_at, u, 0⟩, db')
      | _, _ => (.error INTERNAL_SERVER_ERROR, db')

/-- `DELETE /api/comments/:id` (`delete_comment`): one `DELETE` filtered on
both the id and the acting user; `404` when zero rows were affected, `204`
otherwise. -/
def delete_comment (db : Db) (headers : Option String) (verify : String → Option Int)
    (id : Int) : Except Nat Nat × Db :=
  match extract_user_id headers verify with
  | .error e => (.error e, db)
  | .ok user_id =>
    let remaining := db.comments.filter (fun c => !(c.id == id && c.user_id == user_id))
    let affected := db.comments.length - remaining.length
    if affected = 0 then (.error NOT_FOUND, { db with comments := remaining })
    else (.ok NO_CONTENT, { db with comments := remaining })

/-! ## Content store: forum (`forum.rs`) -/

/-- The response body for a thread (`mikaana_shared::Thread`). -/
structure Thread where
  id : Int
  category_id : Int
  title : String
  body : String
  created_at : Nat
  user : UserRow
  reply_count : Int
deriving DecidableEq, Repr

/-- The response body for a reply (`mikaana_shared::Reply`). -/
structure Reply where
  id : Int
  thread_id : Int
  body : String
  created_at : Nat
  user : UserRow
  vote_count : Int
deriving DecidableEq, Repr

/-- `mikaana_shared::Paginated`. -/
structure Paginated (α : Type) where
  items : List α
  total : Int
  page : Int
  per_page : Int
deriving DecidableEq, Repr

/-- `(SELECT COUNT(*) FROM replies WHERE thread_id = t.id)`. -/
def replyCount (db : Db) (tid : Int) : Int :=
  (db.replies.filter (fun r => r.thread_id == tid)).length

/-- The `JOIN users u ON t.user_id = u.id` row shaping of a thread listing
row; a thread whose author row is missing drops out of the join. -/
def shapeThread (db : Db) (t : ThreadRow) : Option Thread :=
  (db.users.find? (fun u => u.id == t.user_id)).map (fun u =>
    ⟨t.id, t.category_id, t.title, t.body, t.created_at, u, replyCount db t.id⟩)

/-- `GET /api/forum/threads?category=...&page=...` (`list_threads`):
resolve the category slug (404 if unknown), clamp the page to ≥ 1, count all
threads of the category, and return the `created_at DESC` window
`LIMIT 20 OFFSET (page-1)*20`. -/
def list_threads (db : Db) (category : String) (page? : Option Int) :
    Except Nat (Paginated Thread) :=
  let page := max (page?.getD 1) 1
  let per_page : Int := 20
  let offset := (page - 1) * per_page
  match db.categories.find? (fun c => c.slug == category) with
  | none => .error NOT_FOUND
  | some cat =>
    let catThreads := db.threads.filter (fun t => t.category_id == cat.id)
    let total : Int := catThreads.length
    let rows := sortDescBy (fun t => t.created_at) catThreads
    let items := ((rows.filterMap (shapeThread db)).drop offset.toNat).take per_page.toNat
    .ok ⟨items, total, page, per_page⟩

/-- `last_insert_rowid` for an `INSERT` into `threads`. -/
def nextThreadId (db : Db) : Int :=
  (db.threads.map (fun t => t.id)).foldl max 0 + 1

/-- `last_insert_rowid` for an `INSERT` into `replies`. -/
def nextReplyId (db : Db) : Int :=
  (db.replies.map (fun r => r.id)).foldl max 0 + 1

/-- `POST /api/forum/threads` (`create_thread`): authenticate, sanitize
title and body, reject if either is empty after sanitizing, resolve the
category slug (404), insert, re-select the created row joined with its
author, `reply_count: 0`. -/
def create_thread (clean : String → String) (db : Db) (headers : Option String)
    (verify : String → Option Int) (category_slug title_raw body_raw : String)
    (now : Nat) : Except Nat Thread × Db :=
  match extract_user_id headers verify with
  | .error e => (.error e, db)
  | .ok user_id =>
    let title := clean title_raw
    let body := clean body_raw
    if (rustTrim title).data.isEmpty || (rustTrim body).data.isEmpty then
      (.error BAD_REQUEST, db)
    else
      match db.categories.find? (fun c => c.slug == category_slug) with
      | none => (.error NOT_FOUND, db)
      | some cat =>
        let id := nextThreadId db
        let row : ThreadRow := ⟨id, cat.id, user_id, title, body, now⟩
        let db' := { db with threads := db.threads ++ [row] }
        match db'.threads.find? (fun t => t.id == id), db'.users.find? (fun u => u.id == user_id) with
        | some t, some u =>
          (.ok ⟨t.id, t.category_id, t.title, t.body, t.created_at, u, 0⟩, db')
        | _, _ => (.error INTERNAL_SERVER_ERROR, db')

/-- `POST /api/forum/threads/:id/replies` (`create_reply`): authenticate,
sanitize, reject an empty-after-sanitize body, verify the thread exists
(404), insert, re-select joined with the author, `vote_count: 0`. -/
def create_reply (clean : String → String) (db : Db) (headers : Option String)
    (verify : String → Option Int) (thread_id : Int) (raw_body : String)
    (now : Nat) : Except Nat Reply × Db :=
  match extract_user_id headers verify with
  | .error e => (.error e, db)
  | .ok user_id =>
    let body := clean raw_body
    if (rustTrim body).data.isEmpty then (.error BAD_REQUEST, db)
    else
      match db.threads.find? (fun t => t.id == thread_id) with
      | none => (.error NOT_FOUND, db)
      | some _ =>
        let id := nextReplyId db
        let row : ReplyRow := ⟨id, thread_id, user_id, body, now⟩
        let db' := { db with replies := db.replies ++ [row] }
        match db'.replies.find? (fun r => r.id == id), db'.users.find? (fun u => u.id == user_id) with
        | some r, some u => (.ok ⟨r.id, r.thread_id, r.body, r.created_at, u, 0⟩, db')
        | _, _ => (.error INTERNAL_SERVER_ERROR, db')

/-! ## External metrics cache (`github_stats.rs`)

The multi-call GitHub fetch (`fetch_stats`) is an external collaborator and
is passed in as an opaque function.  The third component of the result
records which repository, if any, the handler fetched (none = the fetch was
never invoked), mirroring the fetch-call-count instrumentation the
specification asks tests to use. -/

/-- `mikaana_shared::GitHubStats`. -/
structure GitHubStats where
  commits : Int
  lines_of_code : Int
  crate_count : Int
  stars : Int
  forks : Int
  open_issues : Int
  last_push : String
deriving DecidableEq, Repr

/-- The single global cache slot entry (`CachedStats`). -/
structure CachedStats where
  stats : GitHubStats
  fetched_at : Nat
deriving DecidableEq, Repr

/-- `CACHE_TTL = Duration::from_secs(3600)` (time measured in seconds). -/
def CACHE_TTL : Nat := 3600

/-- `GET /api/github-stats?repo=...` (`get_github_stats`): return the cached
value when its age is below the TTL; otherwise fetch (502 on failure,
leaving the slot as it was) and overwrite the slot on success. -/
def get_github_stats (cache : Option CachedStats) (now : Nat)
    (fetch_stats : String → Except String GitHubStats) (repo : String) :
    Except Nat GitHubStats × Option CachedStats × Option String :=
  let hit : Option GitHubStats :=
    match cache with
    | some cached => if now - cached.fetched_at < CACHE_TTL then some cached.stats else none
    | none => none
  match hit with
  | some stats => (.ok stats, cache, none)
  | none =>
    match fetch_stats repo with
    | .error _ => (.error BAD_GATEWAY, cache, some repo)
    | .ok stats => (.ok stats, some ⟨stats, now⟩, some repo)

/-! ## Statement-level interleaving of two concurrent `cast_vote` calls

`cast_vote` runs its `SELECT` and its write as two separate SQL statements
on a pooled connection, with no enclosing transaction (`votes.rs` never
issues `BEGIN`).  Each individual SQL statement is atomic in SQLite, so a
concurrent double submission by the same user on the same target can
interleave at statement granularity.  `cast_vote_race` is the schedule in
which both handlers read before either writes; `cast_vote_serial` is the
serial composition (the second handler reads after the first one's write).
Both return the two handlers' resulting personal votes and the final
ledger, or `none` if a statement failed. -/

def cast_vote_race (db : Db) (uid : Int) (tt : String) (tid : Int) (value : Int) :
    Option ((Option Int × Option Int) × Db) :=
  let e1 := findVote db.votes uid tt tid
  let e2 := findVote db.votes uid tt tid
  match castWrite db uid tt tid value e1 with
  | .error _ => none
  | .ok (uv1, db1) =>
    match castWrite db1 uid tt tid value e2 with
    | .error _ => none
    | .ok (uv2, db2) => some ((uv1, uv2), db2)

def cast_vote_serial (db : Db) (uid : Int) (tt : String) (tid : Int) (value : Int) :
    Option ((Option Int × Option Int) × Db) :=
  let e1 := findVote db.votes uid tt tid
  match castWrite db uid tt tid value e1 with
  | .error _ => none
  | .ok (uv1, db1) =>
    let e2 := findVote db1.votes uid tt tid
    match castWrite db1 uid tt tid value e2 with
    | .error _ => none
    | .ok (uv2, db2) => some ((uv1, uv2), db2)

/-! ## Concrete request fixtures used by the witnesses -/

/-- A verifier accepting the one token `tok` as user 1. -/
def wVerify : String → Option Int := fun t => if t = "tok" then some 1 else none

/-- An `Authorization` header carrying that token. -/
def wHdr : Option String := some "Bearer tok"

/-- An empty database. -/
def emptyDb : Db := ⟨[], [], [], [], [], []⟩

/-! ## Helper lemmas about the vote ledger -/

theorem findVote_eq_none_iff (votes : List VoteRow) (uid : Int) (tt : String) (tid : Int) :
    findVote votes uid tt tid = none ↔ ∀ r ∈ votes, matchesVote uid tt tid r = false := by
  simp [findVote, List.find?_eq_none]

theorem votes_any_eq_false (votes : List VoteRow) (uid : Int) (tt : String) (tid : Int)
    (h : findVote votes uid tt tid = none) :
    votes.any (matchesVote uid tt tid) = false := by
  rw [List.any_eq_false]
  intro r hr
  simp [(findVote_eq_none_iff votes uid tt tid).mp h r hr]

theorem matchesVote_self (uid : Int) (tt : String) (tid : Int) (v : Int) :
    matchesVote uid tt tid ⟨uid, tt, tid, v⟩ = true := by
  simp [matchesVote]

theorem filter_not_matches_of_findVote_none (votes : List VoteRow) (uid : Int)
    (tt : String) (tid : Int) (h : findVote votes uid tt tid = none) :
    votes.filter (fun r => !(matchesVote uid tt tid r)) = votes := by
  apply List.filter_eq_self.mpr
  intro r hr
  simp [(findVote_eq_none_iff votes uid tt tid).mp h r hr]

/-! ## The three-way branch characterization of `cast_vote` (shared) -/

/-- Full characterization of a successful `cast_vote`: the three-way branch
on the existing vote, and the freshly recomputed aggregate, shared by the
claim theorems below. -/
theorem cast_vote_branch_spec (db : Db) (headers : Option String)
    (verify : String → Option Int) (uid : Int) (tt : String) (tid v : Int)
    (hauth : extract_user_id headers verify = .ok uid) (hv : v = 1 ∨ v = -1) :
    ∃ resp db', cast_vote db headers verify tt tid v = (.ok resp, db') ∧
      resp.vote_count = voteSum db'.votes tt tid ∧
      (findVote db.votes uid tt tid = none →
        db'.votes = db.votes ++ [⟨uid, tt, tid, v⟩] ∧ resp.user_vote = some v) ∧
      (findVote db.votes uid tt tid = some v →
        db'.votes = db.votes.filter (fun r => !(matchesVote uid tt tid r)) ∧
        resp.user_vote = none) ∧
      (∀ ev, findVote db.votes uid tt tid = some ev → ev ≠ v →
        db'.votes = db.votes.map
          (fun r => if matchesVote uid tt tid r then { r with value := v } else r) ∧
        resp.user_vote = some v) := by
  have hval : ¬(v ≠ 1 ∧ v ≠ -1) := by
    rcases hv with h | h <;> simp [h]
  rcases hfind : findVote db.votes uid tt tid with _ | ev
  · have hany := votes_any_eq_false db.votes uid tt tid hfind
    refine ⟨⟨voteSum (db.votes ++ [⟨uid, tt, tid, v⟩]) tt tid, some v⟩, { db with votes := db.votes ++ [⟨uid, tt, tid, v⟩] }, ?_, rfl, fun _ => ⟨rfl, rfl⟩, ?_, ?_⟩
    · simp [cast_vote, hauth, hval, hfind, castWrite, hany]
    · intro h; exact Option.noConfusion h
    · intro ev h; exact Option.noConfusion h
  · by_cases hev : ev = v
    · subst hev
      refine ⟨⟨voteSum (db.votes.filter (fun r => !(matchesVote uid tt tid r))) tt tid, none⟩, { db with votes := db.votes.filter (fun r => !(matchesVote uid tt tid r)) }, ?_, rfl, ?_, fun _ => ⟨rfl, rfl⟩, ?_⟩
      · simp [cast_vote, hauth, hval, hfind, castWrite]
      · intro h; exact Option.noConfusion h
      · intro ev' h hne
        have he := Option.some.inj h
        subst he
        exact absurd rfl hne
    · refine ⟨⟨voteSum (db.votes.map (fun r => if matchesVote uid tt tid r then { r with value := v } else r)) tt tid, some v⟩, { db with votes := db.votes.map (fun r => if matchesVote uid tt tid r then { r with value := v } else r) }, ?_, rfl, ?_, ?_, ?_⟩
      · simp [cast_vote, hauth, hval, hfind, castWrite, hev]
      · intro h; exact Option.noConfusion h
      · intro h
        exact absurd (Option.some.inj h) hev
      · intro ev' h hne
        have he := Option.some.inj h
        subst he
        exact ⟨rfl, rfl⟩

/-- C1: for an authenticated user and a value in {+1, −1}, `cast_vote`
follows the three-way branch on the user's existing vote for the target:
no existing row → insert, personal vote = v; existing row equal to v →
delete (toggle off), personal vote absent; existing row different from v →
update in place, personal vote = v.  In every branch the returned
`vote_count` is the freshly recomputed sum of all live vote rows of the
target (`voteSum`, 0 when no rows remain). -/
theorem cast_vote_three_way_branch (db : Db) (headers : Option String)
    (verify : String → Option Int) (uid : Int) (tt : String) (tid v : Int)
    (hauth : extract_user_id headers verify = .ok uid) (hv : v = 1 ∨ v = -1) :
    ∃ resp db', cast_vote db headers verify tt tid v = (.ok resp, db') ∧
      resp.vote_count = voteSum db'.votes tt tid ∧
      (findVote db.votes uid tt tid = none →
        db'.votes = db.votes ++ [⟨uid, tt, tid, v⟩] ∧ resp.user_vote = some v) ∧
      (findVote db.votes uid tt tid = some v →
        db'.votes = db.votes.filter (fun r => !(matchesVote uid tt tid r)) ∧
        resp.user_vote = none) ∧
      (∀ ev, findVote db.votes uid tt tid = some ev → ev ≠ v →
        db'.votes = db.votes.map
          (fun r => if matchesVote uid tt tid r then { r with value := v } else r) ∧
        resp.user_vote = some v) :=
  cast_vote_branch_spec db headers verify uid tt tid v hauth hv

/-- Witness for C1 at a concrete input: the empty ledger, user 1 voting +1
on comment 5 (the no-existing-vote branch). -/
theorem cast_vote_three_way_branch_witness :
    ∃ resp db', cast_vote emptyDb wHdr wVerify "comment" 5 1 = (.ok resp, db') ∧
      resp.vote_count = voteSum db'.votes "comment" 5 ∧
      (findVote emptyDb.votes 1 "comment" 5 = none →
        db'.votes = emptyDb.votes ++ [⟨1, "comment", 5, 1⟩] ∧ resp.user_vote = some 1) ∧
      (findVote emptyDb.votes 1 "comment" 5 = some 1 →
        db'.votes = emptyDb.votes.filter (fun r => !(matchesVote 1 "comment" 5 r)) ∧
        resp.user_vote = none) ∧
      (∀ ev, findVote emptyDb.votes 1 "comment" 5 = some ev → ev ≠ 1 →
        db'.votes = emptyDb.votes.map
          (fun r => if matchesVote 1 "comment" 5 r then { r with value := 1 } else r) ∧
        resp.user_vote = some 1) :=
  cast_vote_three_way_branch emptyDb wHdr wVerify 1 "comment" 5 1 (by decide) (Or.inl rfl)

/-! ## C2: the +1/+1 toggle round-trip -/

/-- A ledger in which user 1 already holds a +1 vote on comment 5. -/
def dbPlus : Db := ⟨[], [⟨1, "comment", 5, 1⟩], [], [], [], []⟩

/-- A ledger in which user 1 already holds a −1 vote on comment 5. -/
def dbMinus : Db := ⟨[], [⟨1, "comment", 5, -1⟩], [], [], [], []⟩

/-- C2 counterexample: the round-trip does NOT hold from every starting
state.  If user 1 already holds a +1 vote on comment 5, casting +1 twice
ends with personal vote +1 (not absent); if user 1 already holds a −1 vote
(pre-vote aggregate −1), the second call returns aggregate 0, not −1. -/
theorem cast_vote_double_plus_one_counterexample :
    (cast_vote (cast_vote dbPlus wHdr wVerify "comment" 5 1).2 wHdr wVerify "comment" 5 1).1 =
      .ok ⟨1, some 1⟩ ∧
    voteSum dbMinus.votes "comment" 5 = -1 ∧
    (cast_vote (cast_vote dbMinus wHdr wVerify "comment" 5 1).2 wHdr wVerify "comment" 5 1).1 =
      .ok ⟨0, none⟩ := by decide

/-- C2 (amended): for a user with NO existing vote row on the target,
casting +1 twice in a row leaves the user with no personal vote and the
second call returns the aggregate the target had before the first call;
the ledger itself returns to its pre-vote rows. -/
theorem cast_vote_toggle_roundtrip (db : Db) (headers : Option String)
    (verify : String → Option Int) (uid : Int) (tt : String) (tid : Int)
    (hauth : extract_user_id headers verify = .ok uid)
    (hnone : findVote db.votes uid tt tid = none) :
    (cast_vote (cast_vote db headers verify tt tid 1).2 headers verify tt tid 1).1 =
      .ok ⟨voteSum db.votes tt tid, none⟩ ∧
    (cast_vote (cast_vote db headers verify tt tid 1).2 headers verify tt tid 1).2.votes =
      db.votes := by
  have hany := votes_any_eq_false db.votes uid tt tid hnone
  have hfind? : db.votes.find? (matchesVote uid tt tid) = none := by
    simpa [findVote] using hnone
  have h1 : cast_vote db headers verify tt tid 1 =
      (.ok ⟨voteSum (db.votes ++ [⟨uid, tt, tid, 1⟩]) tt tid, some 1⟩,
        { db with votes := db.votes ++ [⟨uid, tt, tid, 1⟩] }) := by
    simp [cast_vote, hauth, hnone, castWrite, hany]
  have hfind1 : findVote (db.votes ++ [⟨uid, tt, tid, 1⟩]) uid tt tid = some 1 := by
    simp [findVote, List.find?_append, hfind?, matchesVote_self]
  have hfilter : (db.votes ++ [(⟨uid, tt, tid, 1⟩ : VoteRow)]).filter
      (fun r => !(matchesVote uid tt tid r)) = db.votes := by
    rw [List.filter_append, filter_not_matches_of_findVote_none db.votes uid tt tid hnone]
    simp [matchesVote_self]
  rw [h1]
  have h2 : cast_vote { db with votes := db.votes ++ [(⟨uid, tt, tid, 1⟩ : VoteRow)] } headers verify tt tid 1 =
      (.ok ⟨voteSum db.votes tt tid, none⟩, { db with votes := db.votes }) := by
    simp [cast_vote, hauth, hfind1, castWrite, hfilter]
  rw [h2]
  exact ⟨rfl, rfl⟩

/-- Witness for C2's amended theorem: the empty ledger, user 1, comment 5. -/
theorem cast_vote_toggle_roundtrip_witness :
    (cast_vote (cast_vote emptyDb wHdr wVerify "comment" 5 1).2 wHdr wVerify "comment" 5 1).1 =
      .ok ⟨voteSum emptyDb.votes "comment" 5, none⟩ ∧
    (cast_vote (cast_vote emptyDb wHdr wVerify "comment" 5 1).2 wHdr wVerify "comment" 5 1).2.votes =
      emptyDb.votes :=
  cast_vote_toggle_roundtrip emptyDb wHdr wVerify 1 "comment" 5 (by decide) (by decide)

/-! ## C4: `cast_vote` performs no target existence validation -/

/-- C4: `cast_vote` never checks the target against the content tables:
for an authenticated user and v ∈ {+1, −1}, even when NO comment, reply or
thread whatsoever has the target id, the call succeeds (in particular there
is no not-found outcome) and the vote is recorded — a user without a prior
vote ends up with their row in the ledger. -/
theorem cast_vote_no_target_validation (db : Db) (headers : Option String)
    (verify : String → Option Int) (uid : Int) (tt : String) (tid v : Int)
    (hauth : extract_user_id headers verify = .ok uid) (hv : v = 1 ∨ v = -1)
    (hnoc : ∀ c ∈ db.comments, c.id ≠ tid)
    (hnor : ∀ r ∈ db.replies, r.id ≠ tid)
    (hnot : ∀ t ∈ db.threads, t.id ≠ tid) :
    ∃ resp db', cast_vote db headers verify tt tid v = (.ok resp, db') ∧
      (findVote db.votes uid tt tid = none →
        (⟨uid, tt, tid, v⟩ : VoteRow) ∈ db'.votes) := by
  obtain ⟨resp, db', heq, _, hins, _, _⟩ :=
    cast_vote_branch_spec db headers verify uid tt tid v hauth hv
  refine ⟨resp, db', heq, fun h => ?_⟩
  rw [(hins h).1]
  exact List.mem_append_right _ (List.mem_singleton.mpr rfl)

/-- A database with content (user 1, a comment, a thread, a reply) but none
of them carrying id 999999. -/
def dbContent : Db :=
  ⟨[⟨1, "alice", "a.png"⟩], [], [⟨1, "post", 1, "hi", 0⟩],
   [⟨3, 1, 1, "t", "b", 0⟩], [⟨2, 3, 1, "r", 0⟩], [⟨1, "General", "general", ""⟩]⟩

/-- Witness for C4: voting on the arbitrary id 999999, which no content row
has, still succeeds and records the vote. -/
theorem cast_vote_no_target_validation_witness :
    ∃ resp db', cast_vote dbContent wHdr wVerify "comment" 999999 1 = (.ok resp, db') ∧
      (findVote dbContent.votes 1 "comment" 999999 = none →
        (⟨1, "comment", 999999, 1⟩ : VoteRow) ∈ db'.votes) :=
  cast_vote_no_target_validation dbContent wHdr wVerify 1 "comment" 999999 1
    (by decide) (Or.inl rfl) (by decide) (by decide) (by decide)

/-! ## C5: `delete_comment` ownership hidden as not-found -/

/-- C5: `delete_comment` returns `404 NOT_FOUND` exactly when no comment
with the given id authored by the acting user exists (a missing id and a
comment owned by someone else are indistinguishable); in that case the
database is unchanged.  It succeeds with `204 NO_CONTENT` exactly when such
a comment exists, in which case precisely the caller's rows with that id
are removed; a comment not owned by the caller always survives the call. -/
theorem delete_comment_not_found_semantics (db : Db) (headers : Option String)
    (verify : String → Option Int) (uid cid : Int)
    (hauth : extract_user_id headers verify = .ok uid) :
    ((delete_comment db headers verify cid).1 = .error NOT_FOUND ↔
      ∀ c ∈ db.comments, ¬(c.id = cid ∧ c.user_id = uid)) ∧
    ((delete_comment db headers verify cid).1 = .error NOT_FOUND →
      (delete_comment db headers verify cid).2 = db) ∧
    ((delete_comment db headers verify cid).1 = .ok NO_CONTENT ↔
      ∃ c ∈ db.comments, c.id = cid ∧ c.user_id = uid) ∧
    (delete_comment db headers verify cid).2.comments =
      db.comments.filter (fun c => !(c.id == cid && c.user_id == uid)) ∧
    (∀ c ∈ db.comments, c.user_id ≠ uid →
      c ∈ (delete_comment db headers verify cid).2.comments) := by
  have hmem : ∀ c ∈ db.comments, c.user_id ≠ uid →
      c ∈ db.comments.filter (fun c => !(c.id == cid && c.user_id == uid)) := by
    intro c hc hne
    refine List.mem_filter.mpr ⟨hc, ?_⟩
    simp [hne]
  by_cases hall : ∀ c ∈ db.comments, ¬(c.id = cid ∧ c.user_id = uid)
  · have hkeep : ∀ c ∈ db.comments, (!(c.id == cid && c.user_id == uid)) = true := by
      intro c hc
      have := hall c hc
      simp only [Bool.not_eq_true', Bool.and_eq_false_iff, beq_eq_false_iff_ne]
      by_cases h1 : c.id = cid
      · exact Or.inr (fun h2 => this ⟨h1, h2⟩)
      · exact Or.inl h1
    have hrem : db.comments.filter (fun c => !(c.id == cid && c.user_id == uid)) = db.comments :=
      List.filter_eq_self.mpr hkeep
    have hd : delete_comment db headers verify cid = (.error NOT_FOUND, { db with comments := db.comments.filter (fun c => !(c.id == cid && c.user_id == uid)) }) := by
      simp only [delete_comment, hauth]
      rw [if_pos (by rw [hrem, Nat.sub_self])]
    rw [hd, hrem]
    refine ⟨⟨fun _ => hall, fun _ => rfl⟩, fun _ => rfl, ⟨fun h => Except.noConfusion h, ?_⟩, rfl, ?_⟩
    · rintro ⟨c, hc, hid, hu⟩
      exact absurd ⟨hid, hu⟩ (hall c hc)
    · intro c hc hne
      exact hc
  · push_neg at hall
    obtain ⟨c₀, hc₀, hid₀, hu₀⟩ := hall
    have hlt : (db.comments.filter (fun c => !(c.id == cid && c.user_id == uid))).length <
        db.comments.length := by
      refine List.length_filter_lt_length_iff_exists.mpr ⟨c₀, hc₀, ?_⟩
      simp [hid₀, hu₀]
    have haff : db.comments.length -
        (db.comments.filter (fun c => !(c.id == cid && c.user_id == uid))).length ≠ 0 :=
      Nat.sub_ne_zero_of_lt hlt
    have hd : delete_comment db headers verify cid = (.ok NO_CONTENT, { db with comments := db.comments.filter (fun c => !(c.id == cid && c.user_id == uid)) }) := by
      simp only [delete_comment, hauth]
      rw [if_neg haff]
    rw [hd]
    refine ⟨⟨fun h => Except.noConfusion h, fun h => absurd ⟨hid₀, hu₀⟩ (h c₀ hc₀)⟩, fun h => absurd h (by simp), ⟨fun _ => ⟨c₀, hc₀, hid₀, hu₀⟩, fun _ => rfl⟩, rfl, hmem⟩

/-- A database holding one comment by user 2 (id 7) and one by user 1
(id 8); the fixture token authenticates as user 1. -/
def dbComments : Db :=
  ⟨[⟨1, "alice", "a.png"⟩, ⟨2, "bob", "b.png"⟩], [],
   [⟨7, "post", 2, "bobs comment", 0⟩, ⟨8, "post", 1, "alices comment", 1⟩],
   [], [], []⟩

/-- Witness for C5: user 1 attempting to delete comment 7 (owned by user 2)
gets 404 and the comment survives. -/
theorem delete_comment_not_found_semantics_witness :
    ((delete_comment dbComments wHdr wVerify 7).1 = .error NOT_FOUND ↔
      ∀ c ∈ dbComments.comments, ¬(c.id = 7 ∧ c.user_id = 1)) ∧
    ((delete_comment dbComments wHdr wVerify 7).1 = .error NOT_FOUND →
      (delete_comment dbComments wHdr wVerify 7).2 = dbComments) ∧
    ((delete_comment dbComments wHdr wVerify 7).1 = .ok NO_CONTENT ↔
      ∃ c ∈ dbComments.comments, c.id = 7 ∧ c.user_id = 1) ∧
    (delete_comment dbComments wHdr wVerify 7).2.comments =
      dbComments.comments.filter (fun c => !(c.id == 7 && c.user_id == 1)) ∧
    (∀ c ∈ dbComments.comments, c.user_id ≠ 1 →
      c ∈ (delete_comment dbComments wHdr wVerify 7).2.comments) :=
  delete_comment_not_found_semantics dbComments wHdr wVerify 1 7 (by decide)

/-! ## C9: invalid bearer tokens and the optional-auth read path -/

theorem extract_user_id_error_is_unauthorized (headers : Option String)
    (verify : String → Option Int) (e : Nat)
    (h : extract_user_id headers verify = .error e) : e = UNAUTHORIZED := by
  unfold extract_user_id at h
  split at h
  · exact (Except.error.inj h).symm
  · split at h
    · exact Except.noConfusion h
    · exact (Except.error.inj h).symm

/-- C9: a request whose `Authorization` header fails token verification is
treated by `get_votes` exactly like an anonymous request: it succeeds with
the aggregate and no personal vote, and equals the response to the same
request without any header; `cast_vote`, by contrast, propagates the
failure as `401 UNAUTHORIZED` (for every value) and leaves the database
untouched. -/
theorem get_votes_invalid_token_as_anonymous (db : Db) (headers : Option String)
    (verify : String → Option Int) (tt : String) (tid : Int) (e : Nat)
    (hfail : extract_user_id headers verify = .error e) :
    get_votes db headers verify tt tid = .ok ⟨voteSum db.votes tt tid, none⟩ ∧
    get_votes db headers verify tt tid = get_votes db none verify tt tid ∧
    ∀ v, cast_vote db headers verify tt tid v = (.error UNAUTHORIZED, db) := by
  have he := extract_user_id_error_is_unauthorized headers verify e hfail
  subst he
  have hnone : extract_user_id none verify = .error UNAUTHORIZED := rfl
  refine ⟨?_, ?_, ?_⟩
  · simp [get_votes, hfail, Except.toOption]
  · simp [get_votes, hfail, hnone, Except.toOption]
  · intro v
    simp [cast_vote, hfail]

/-- An `Authorization` header whose token the verifier rejects. -/
def badHdr : Option String := some "Bearer bad"

/-- Witness for C9: an invalid token against the ledger holding user 1's
+1 vote on comment 5; reads succeed anonymously, writes get 401. -/
theorem get_votes_invalid_token_as_anonymous_witness :
    get_votes dbPlus badHdr wVerify "comment" 5 = .ok ⟨voteSum dbPlus.votes "comment" 5, none⟩ ∧
    get_votes dbPlus badHdr wVerify "comment" 5 = get_votes dbPlus none wVerify "comment" 5 ∧
    cast_vote dbPlus badHdr wVerify "comment" 5 1 = (.error UNAUTHORIZED, dbPlus) := by
  obtain ⟨h1, h2, h3⟩ :=
    get_votes_invalid_token_as_anonymous dbPlus badHdr wVerify "comment" 5 UNAUTHORIZED (by decide)
  exact ⟨h1, h2, h3 1⟩

/-! ## C7: a failed metrics fetch surfaces as 502 and preserves the cache -/

/-- C7: when the cache slot is empty or its entry has reached the TTL (so a
fetch is attempted) and the external fetch fails, `get_github_stats`
returns `502 BAD_GATEWAY` and the cache slot is returned exactly as it was
before the request. -/
theorem github_stats_fetch_failure_preserves_cache (cache : Option CachedStats)
    (now : Nat) (fetch_stats : String → Except String GitHubStats) (repo msg : String)
    (hmiss : cache = none ∨ ∃ c, cache = some c ∧ CACHE_TTL ≤ now - c.fetched_at)
    (hfail : fetch_stats repo = .error msg) :
    get_github_stats cache now fetch_stats repo = (.error BAD_GATEWAY, cache, some repo) := by
  rcases hmiss with h | ⟨c, hc, hstale⟩
  · subst h
    simp [get_github_stats, hfail]
  · subst hc
    simp [get_github_stats, hfail, Nat.not_lt.mpr hstale]

/-- A concrete stats payload for the cache witnesses. -/
def wStats : GitHubStats := ⟨100, 2000, 5, 10, 2, 3, "2025-01-01T00:00:00Z"⟩

/-- Witness for C7: a stale cache entry (fetched at 0, read at 5000) with a
failing fetch yields 502 and the very same slot. -/
theorem github_stats_fetch_failure_preserves_cache_witness :
    get_github_stats (some ⟨wStats, 0⟩) 5000 (fun _ => .error "down") "girivs82/mikaana" =
      (.error BAD_GATEWAY, some ⟨wStats, 0⟩, some "girivs82/mikaana") :=
  github_stats_fetch_failure_preserves_cache (some ⟨wStats, 0⟩) 5000
    (fun _ => .error "down") "girivs82/mikaana" "down"
    (Or.inr ⟨⟨wStats, 0⟩, rfl, by decide⟩) rfl

/-! ## C10: the cache slot is global, not keyed by the repo parameter -/

/-- C10: after a successful fetch for repo A at time t0 filled the slot,
any request within the TTL — for ANY repo B and against ANY fetch function
— returns A's cached stats, performs no fetch at all, and leaves the slot
unchanged. -/
theorem github_stats_cache_ignores_repo_param (cache0 : Option CachedStats)
    (t0 : Nat) (fetch_stats : String → Except String GitHubStats) (repoA : String)
    (sA : GitHubStats)
    (hmiss : cache0 = none ∨ ∃ c, cache0 = some c ∧ CACHE_TTL ≤ t0 - c.fetched_at)
    (hok : fetch_stats repoA = .ok sA) :
    get_github_stats cache0 t0 fetch_stats repoA = (.ok sA, some ⟨sA, t0⟩, some repoA) ∧
    ∀ (repoB : String) (fetch2 : String → Except String GitHubStats) (t1 : Nat),
      t1 - t0 < CACHE_TTL →
      get_github_stats (some ⟨sA, t0⟩) t1 fetch2 repoB = (.ok sA, some ⟨sA, t0⟩, none) := by
  constructor
  · rcases hmiss with h | ⟨c, hc, hstale⟩
    · subst h
      simp [get_github_stats, hok]
    · subst hc
      simp [get_github_stats, hok, Nat.not_lt.mpr hstale]
  · intro repoB fetch2 t1 h
    simp [get_github_stats, h]

/-- A fetch function that only knows repo `owner/a`. -/
def wFetch : String → Except String GitHubStats :=
  fun r => if r = "owner/a" then .ok wStats else .error "unknown repo"

/-- Witness for C10: fill the slot for `owner/a` at time 0, then request
`owner/b` at time 100 — the cached `owner/a` stats come back and the fetch
(which would fail for `owner/b`) is never invoked. -/
theorem github_stats_cache_ignores_repo_param_witness :
    get_github_stats none 0 wFetch "owner/a" = (.ok wStats, some ⟨wStats, 0⟩, some "owner/a") ∧
    get_github_stats (some ⟨wStats, 0⟩) 100 wFetch "owner/b" =
      (.ok wStats, some ⟨wStats, 0⟩, none) := by
  obtain ⟨h1, h2⟩ := github_stats_cache_ignores_repo_param none 0 wFetch "owner/a" wStats
    (Or.inl rfl) (by decide)
  exact ⟨h1, h2 "owner/b" wFetch 100 (by decide)⟩

/-! ## C8: `cast_vote` is NOT atomic per key

`votes.rs` issues its `SELECT`, its write, and its recount as three plain
statements on a pooled connection and never opens a transaction, so two
concurrent submissions by the same user on the same target can both read
the existing vote before either writes.  The theorem evaluates that
interleaving at the failing input: user 1 double-submits +1 while holding a
+1 vote on comment 5.  Both handlers observe the old vote and both delete,
so both report "toggled off" and the final ledger is empty — an outcome no
serial execution produces (serially the second call re-inserts the vote).
From an empty ledger the same schedule makes the second `INSERT` collide
with the UNIQUE constraint and the handler fails with 500. -/
theorem cast_vote_race_not_serializable :
    cast_vote_race dbPlus 1 "comment" 5 1 = some ((none, none), emptyDb) ∧
    cast_vote_serial dbPlus 1 "comment" 5 1 = some ((none, some 1), dbPlus) ∧
    cast_vote_race dbPlus 1 "comment" 5 1 ≠ cast_vote_serial dbPlus 1 "comment" 5 1 ∧
    cast_vote_race emptyDb 1 "comment" 5 1 = none ∧
    cast_vote_serial emptyDb 1 "comment" 5 1 = some ((some 1, none), emptyDb) := by
  decide

/-! ## C3: the `list_threads` pagination contract -/

theorem insertDescBy_length (key : α → Nat) (x : α) (l : List α) :
    (insertDescBy key x l).length = l.length + 1 := by
  induction l with
  | nil => rfl
  | cons y rest ih =>
    unfold insertDescBy
    by_cases h : key x ≤ key y <;> simp [h, ih]

theorem sortDescBy_length (key : α → Nat) (l : List α) :
    (sortDescBy key l).length = l.length := by
  induction l with
  | nil => rfl
  | cons y rest ih =>
    unfold sortDescBy
    rw [insertDescBy_length, ih, List.length_cons]

theorem mem_insertDescBy (key : α → Nat) (x y : α) (l : List α) :
    y ∈ insertDescBy key x l ↔ y = x ∨ y ∈ l := by
  induction l with
  | nil => simp [insertDescBy]
  | cons z rest ih =>
    unfold insertDescBy
    by_cases h : key x ≤ key z
    · rw [if_pos h]
      simp only [List.mem_cons, ih]
      tauto
    · rw [if_neg h]
      simp only [List.mem_cons]

theorem mem_sortDescBy (key : α → Nat) (y : α) (l : List α) :
    y ∈ sortDescBy key l ↔ y ∈ l := by
  induction l with
  | nil => simp [sortDescBy]
  | cons z rest ih =>
    unfold sortDescBy
    rw [mem_insertDescBy, ih, List.mem_cons]

/-- C3: with an existing category, `list_threads` returns `per_page = 20`,
the requested page clamped below by 1 (any page ≤ 0 behaves as page 1),
`total` = the full thread count of the category disregarding pagination,
and `items` = at most 20 of the author-joined, `created_at`-descending
thread rows taken at offset `(page−1)·20`; a page pointing past the end
yields an empty `items` (not an error), and `page = 0` is identical to
`page = 1`. -/
theorem list_threads_pagination_contract (db : Db) (catSlug : String)
    (page? : Option Int) (cat : CategoryRow)
    (hcat : db.categories.find? (fun c => c.slug == catSlug) = some cat)
    (husers : ∀ t ∈ db.threads, (db.users.find? (fun u => u.id == t.user_id)).isSome) :
    ∃ p, list_threads db catSlug page? = .ok p ∧
      p.per_page = 20 ∧
      p.page = max (page?.getD 1) 1 ∧
      (∀ n, page? = some n → n ≤ 0 → p.page = 1) ∧
      p.total = ((db.threads.filter (fun t => t.category_id == cat.id)).length : Int) ∧
      p.items = (((sortDescBy (fun t => t.created_at) (db.threads.filter (fun t => t.category_id == cat.id))).filterMap (shapeThread db)).drop ((max (page?.getD 1) 1 - 1) * 20).toNat).take 20 ∧
      p.items.length ≤ 20 ∧
      (p.total ≤ (max (page?.getD 1) 1 - 1) * 20 → p.items = []) ∧
      list_threads db catSlug (some 0) = list_threads db catSlug (some 1) := by
  have hjoinlen : ((sortDescBy (fun t => t.created_at) (db.threads.filter (fun t => t.category_id == cat.id))).filterMap (shapeThread db)).length = (db.threads.filter (fun t => t.category_id == cat.id)).length := by
    rw [List.filterMap_length_eq_length.mpr, sortDescBy_length]
    intro t ht
    have ht' : t ∈ db.threads.filter (fun t => t.category_id == cat.id) :=
      (mem_sortDescBy _ t _).mp ht
    have := husers t (List.mem_filter.mp ht').1
    simpa [shapeThread]
  refine ⟨⟨(((sortDescBy (fun t => t.created_at) (db.threads.filter (fun t => t.category_id == cat.id))).filterMap (shapeThread db)).drop ((max (page?.getD 1) 1 - 1) * 20).toNat).take 20, ((db.threads.filter (fun t => t.category_id == cat.id)).length : Int), max (page?.getD 1) 1, 20⟩, ?_, rfl, rfl, ?_, rfl, rfl, ?_, ?_, ?_⟩
  · simp [list_threads, hcat]
  · intro n hn hle
    subst hn
    simp only [Option.getD_some]
    omega
  · exact List.length_take_le _ _
  · intro hpast
    have hoff : ((db.threads.filter (fun t => t.category_id == cat.id)).length : Nat) ≤ ((max (page?.getD 1) 1 - 1) * 20 : Int).toNat := by
      have := Int.toNat_le_toNat hpast
      simpa using this
    apply List.take_eq_nil_of_eq_nil
    apply List.drop_eq_nil_of_le
    rw [hjoinlen]
    exact hoff
  · norm_num [list_threads]

/-- A forum database: one category (`general`), two threads by user 1. -/
def dbForum : Db :=
  ⟨[⟨1, "alice", "a.png"⟩], [], [],
   [⟨1, 1, 1, "T1", "B1", 10⟩, ⟨2, 1, 1, "T2", "B2", 20⟩],
   [], [⟨1, "General", "general", "General discussion"⟩]⟩

/-- Witness for C3 at page 0: it is clamped to 1 and behaves as page 1. -/
theorem list_threads_pagination_contract_witness :
    ∃ p, list_threads dbForum "general" (some 0) = .ok p ∧
      p.per_page = 20 ∧
      p.page = max ((some (0 : Int)).getD 1) 1 ∧
      (∀ n, (some (0 : Int)) = some n → n ≤ 0 → p.page = 1) ∧
      p.total = ((dbForum.threads.filter (fun t => t.category_id == (1 : Int))).length : Int) ∧
      p.items = (((sortDescBy (fun t => t.created_at) (dbForum.threads.filter (fun t => t.category_id == (1 : Int)))).filterMap (shapeThread dbForum)).drop ((max ((some (0 : Int)).getD 1) 1 - 1) * 20).toNat).take 20 ∧
      p.items.length ≤ 20 ∧
      (p.total ≤ (max ((some (0 : Int)).getD 1) 1 - 1) * 20 → p.items = []) ∧
      list_threads dbForum "general" (some 0) = list_threads dbForum "general" (some 1) := by
  have h := list_threads_pagination_contract dbForum "general" (some 0)
    ⟨1, "General", "general", "General discussion"⟩ (by decide) (by decide)
  simpa using h

/-! ## C6: sanitize before the emptiness check, store the sanitized text -/

theorem le_foldl_max (l : List Int) (a : Int) : a ≤ l.foldl max a := by
  induction l generalizing a with
  | nil => exact le_refl a
  | cons x xs ih => exact le_trans (le_max_left a x) (ih (max a x))

theorem mem_le_foldl_max (l : List Int) (x : Int) (hx : x ∈ l) :
    ∀ a : Int, x ≤ l.foldl max a := by
  induction l with
  | nil => cases hx
  | cons y ys ih =>
    intro a
    rcases List.mem_cons.mp hx with h | h
    · subst h
      exact le_trans (le_max_right a x) (le_foldl_max ys (max a x))
    · exact ih h (max a y)

/-- A freshly assigned rowid (`max + 1`) differs from every existing id. -/
theorem fresh_id (ids : List Int) (x : Int) (hx : x ∈ ids) :
    x ≠ ids.foldl max 0 + 1 := by
  have := mem_le_foldl_max ids x hx 0
  omega

/-- `find?` over `l ++ [x]` hits `x` when nothing in `l` matches. -/
theorem find?_append_fresh (l : List α) (p : α → Bool) (x : α)
    (hall : ∀ y ∈ l, p y = false) (hx : p x = true) :
    (l ++ [x]).find? p = some x := by
  have h1 : l.find? p = none := List.find?_eq_none.mpr (by intro y hy; simp [hall y hy])
  simp [List.find?_append, h1, List.find?_cons, hx]

theorem create_comment_rejects_empty (clean : String → String) (db : Db)
    (headers : Option String) (verify : String → Option Int) (uid : Int)
    (slug raw : String) (now : Nat)
    (hauth : extract_user_id headers verify = .ok uid)
    (hempty : (rustTrim (clean raw)).data.isEmpty = true) :
    create_comment clean db headers verify slug raw now = (.error BAD_REQUEST, db) := by
  simp only [create_comment, hauth]
  rw [if_pos hempty]

theorem create_comment_stores_sanitized (clean : String → String) (db : Db)
    (headers : Option String) (verify : String → Option Int) (uid : Int) (u : UserRow)
    (slug raw : String) (now : Nat)
    (hauth : extract_user_id headers verify = .ok uid)
    (huser : db.users.find? (fun x => x.id == uid) = some u)
    (hne : (rustTrim (clean raw)).data.isEmpty = false) :
    create_comment clean db headers verify slug raw now =
      (.ok ⟨nextCommentId db, slug, clean raw, now, u, 0⟩, { db with comments := db.comments ++ [⟨nextCommentId db, slug, uid, clean raw, now⟩] }) := by
  have hfresh : ∀ c ∈ db.comments, ((c.id == nextCommentId db) : Bool) = false := by
    intro c hc
    have := fresh_id (db.comments.map (fun c => c.id)) c.id (List.mem_map_of_mem _ hc)
    simp [nextCommentId, this]
  have hfind : (db.comments ++ [(⟨nextCommentId db, slug, uid, clean raw, now⟩ : CommentRow)]).find? (fun c => c.id == nextCommentId db) = some ⟨nextCommentId db, slug, uid, clean raw, now⟩ :=
    find?_append_fresh _ _ _ hfresh (by simp)
  simp only [create_comment, hauth]
  rw [if_neg (by simp [hne])]
  simp [hfind, huser]

theorem create_thread_rejects_empty (clean : String → String) (db : Db)
    (headers : Option String) (verify : String → Option Int) (uid : Int)
    (catSlug rawT rawB : String) (now : Nat)
    (hauth : extract_user_id headers verify = .ok uid)
    (hempty : ((rustTrim (clean rawT)).data.isEmpty || (rustTrim (clean rawB)).data.isEmpty) = true) :
    create_thread clean db headers verify catSlug rawT rawB now = (.error BAD_REQUEST, db) := by
  simp only [create_thread, hauth]
  rw [if_pos hempty]

theorem create_thread_stores_sanitized (clean : String → String) (db : Db)
    (headers : Option String) (verify : String → Option Int) (uid : Int) (u : UserRow)
    (catSlug : String) (cat : CategoryRow) (rawT rawB : String) (now : Nat)
    (hauth : extract_user_id headers verify = .ok uid)
    (huser : db.users.find? (fun x => x.id == uid) = some u)
    (hcat : db.categories.find? (fun c => c.slug == catSlug) = some cat)
    (hT : (rustTrim (clean rawT)).data.isEmpty = false)
    (hB : (rustTrim (clean rawB)).data.isEmpty = false) :
    create_thread clean db headers verify catSlug rawT rawB now =
      (.ok ⟨nextThreadId db, cat.id, clean rawT, clean rawB, now, u, 0⟩, { db with threads := db.threads ++ [⟨nextThreadId db, cat.id, uid, clean rawT, clean rawB, now⟩] }) := by
  have hfresh : ∀ t ∈ db.threads, ((t.id == nextThreadId db) : Bool) = false := by
    intro t ht
    have := fresh_id (db.threads.map (fun t => t.id)) t.id (List.mem_map_of_mem _ ht)
    simp [nextThreadId, this]
  have hfind : (db.threads ++ [(⟨nextThreadId db, cat.id, uid, clean rawT, clean rawB, now⟩ : ThreadRow)]).find? (fun t => t.id == nextThreadId db) = some ⟨nextThreadId db, cat.id, uid, clean rawT, clean rawB, now⟩ :=
    find?_append_fresh _ _ _ hfresh (by simp)
  simp only [create_thread, hauth]
  rw [if_neg (by simp [hT, hB])]
  simp [hcat, hfind, huser]

theorem create_reply_rejects_empty (clean : String → String) (db : Db)
    (headers : Option String) (verify : String → Option Int) (uid tid : Int)
    (raw : String) (now : Nat)
    (hauth : extract_user_id headers verify = .ok uid)
    (hempty : (rustTrim (clean raw)).data.isEmpty = true) :
    create_reply clean db headers verify tid raw now = (.error BAD_REQUEST, db) := by
  simp only [create_reply, hauth]
  rw [if_pos hempty]

theorem create_reply_stores_sanitized (clean : String → String) (db : Db)
    (headers : Option String) (verify : String → Option Int) (uid : Int) (u : UserRow)
    (tid : Int) (t : ThreadRow) (raw : String) (now : Nat)
    (hauth : extract_user_id headers verify = .ok uid)
    (huser : db.users.find? (fun x => x.id == uid) = some u)
    (hthr : db.threads.find? (fun x => x.id == tid) = some t)
    (hne : (rustTrim (clean raw)).data.isEmpty = false) :
    create_reply clean db headers verify tid raw now =
      (.ok ⟨nextReplyId db, tid, clean raw, now, u, 0⟩, { db with replies := db.replies ++ [⟨nextReplyId db, tid, uid, clean raw, now⟩] }) := by
  have hfresh : ∀ r ∈ db.replies, ((r.id == nextReplyId db) : Bool) = false := by
    intro r hr
    have := fresh_id (db.replies.map (fun r => r.id)) r.id (List.mem_map_of_mem _ hr)
    simp [nextReplyId, this]
  have hfind : (db.replies ++ [(⟨nextReplyId db, tid, uid, clean raw, now⟩ : ReplyRow)]).find? (fun r => r.id == nextReplyId db) = some ⟨nextReplyId db, tid, uid, clean raw, now⟩ :=
    find?_append_fresh _ _ _ hfresh (by simp)
  simp only [create_reply, hauth]
  rw [if_neg (by simp [hne])]
  simp [hthr, hfind, huser]

/-- C6: for every free-text creation operation (`create_comment`,
`create_thread`, `create_reply`) the raw input is sanitized first and the
emptiness check is applied to the sanitized, trimmed result: if that result
is empty the operation returns `400 BAD_REQUEST` and the database is
unchanged (so a whitespace-only body is rejected); if it is non-empty, the
operation succeeds and the sanitized text — not the raw input — is what is
stored in the inserted row and returned in the response body. -/
theorem create_ops_sanitize_then_validate (clean : String → String) (db : Db)
    (headers : Option String) (verify : String → Option Int) (uid : Int) (u : UserRow)
    (slug catSlug : String) (cat : CategoryRow) (tid : Int) (t : ThreadRow) (now : Nat)
    (hauth : extract_user_id headers verify = .ok uid)
    (huser : db.users.find? (fun x => x.id == uid) = some u)
    (hcat : db.categories.find? (fun c => c.slug == catSlug) = some cat)
    (hthr : db.threads.find? (fun x => x.id == tid) = some t) :
    (∀ raw, (rustTrim (clean raw)).data.isEmpty = true →
      create_comment clean db headers verify slug raw now = (.error BAD_REQUEST, db)) ∧
    (∀ rawT rawB, ((rustTrim (clean rawT)).data.isEmpty || (rustTrim (clean rawB)).data.isEmpty) = true →
      create_thread clean db headers verify catSlug rawT rawB now = (.error BAD_REQUEST, db)) ∧
    (∀ raw, (rustTrim (clean raw)).data.isEmpty = true →
      create_reply clean db headers verify tid raw now = (.error BAD_REQUEST, db)) ∧
    (∀ raw, (rustTrim (clean raw)).data.isEmpty = false →
      ∃ c db', create_comment clean db headers verify slug raw now = (.ok c, db') ∧
        c.body = clean raw ∧
        db'.comments = db.comments ++ [⟨nextCommentId db, slug, uid, clean raw, now⟩]) ∧
    (∀ rawT rawB, (rustTrim (clean rawT)).data.isEmpty = false →
      (rustTrim (clean rawB)).data.isEmpty = false →
      ∃ th db', create_thread clean db headers verify catSlug rawT rawB now = (.ok th, db') ∧
        th.title = clean rawT ∧ th.body = clean rawB ∧
        db'.threads = db.threads ++ [⟨nextThreadId db, cat.id, uid, clean rawT, clean rawB, now⟩]) ∧
    (∀ raw, (rustTrim (clean raw)).data.isEmpty = false →
      ∃ r db', create_reply clean db headers verify tid raw now = (.ok r, db') ∧
        r.body = clean raw ∧
        db'.replies = db.replies ++ [⟨nextReplyId db, tid, uid, clean raw, now⟩]) := by
  refine ⟨?_, ?_, ?_, ?_, ?_, ?_⟩
  · intro raw h
    exact create_comment_rejects_empty clean db headers verify uid slug raw now hauth h
  · intro rawT rawB h
    exact create_thread_rejects_empty clean db headers verify uid catSlug rawT rawB now hauth h
  · intro raw h
    exact create_reply_rejects_empty clean db headers verify uid tid raw now hauth h
  · intro raw h
    exact ⟨_, _, create_comment_stores_sanitized clean db headers verify uid u slug raw now hauth huser h, rfl, rfl⟩
  · intro rawT rawB hT hB
    exact ⟨_, _, create_thread_stores_sanitized clean db headers verify uid u catSlug cat rawT rawB now hauth huser hcat hT hB, rfl, rfl, rfl⟩
  · intro raw h
    exact ⟨_, _, create_reply_stores_sanitized clean db headers verify uid u tid t raw now hauth huser hthr h, rfl, rfl⟩

/-- A concrete stand-in for the sanitizer: it strips the script tag of the
specification's example and keeps everything else unchanged. -/
def wClean : String → String :=
  fun s => if s = "<script>x</script>Hello" then "Hello" else s

/-- Witness for C6: a whitespace-only body is rejected with 400 by all
three operations, and `"<script>x</script>Hello"` is stored as its
sanitized remainder `"Hello"`. -/
theorem create_ops_sanitize_then_validate_witness :
    create_comment wClean dbForum wHdr wVerify "post" "   " 99 = (.error BAD_REQUEST, dbForum) ∧
    create_thread wClean dbForum wHdr wVerify "general" "   " "body" 99 = (.error BAD_REQUEST, dbForum) ∧
    create_reply wClean dbForum wHdr wVerify 1 "   " 99 = (.error BAD_REQUEST, dbForum) ∧
    (∃ c db', create_comment wClean dbForum wHdr wVerify "post" "<script>x</script>Hello" 99 = (.ok c, db') ∧
      c.body = wClean "<script>x</script>Hello" ∧
      db'.comments = dbForum.comments ++ [⟨nextCommentId dbForum, "post", 1, wClean "<script>x</script>Hello", 99⟩]) ∧
    (∃ th db', create_thread wClean dbForum wHdr wVerify "general" "Title" "Body" 99 = (.ok th, db') ∧
      th.title = wClean "Title" ∧ th.body = wClean "Body" ∧
      db'.threads = dbForum.threads ++ [⟨nextThreadId dbForum, 1, 1, wClean "Title", wClean "Body", 99⟩]) ∧
    (∃ r db', create_reply wClean dbForum wHdr wVerify 1 "Reply" 99 = (.ok r, db') ∧
      r.body = wClean "Reply" ∧
      db'.replies = dbForum.replies ++ [⟨nextReplyId dbForum, 1, 1, wClean "Reply", 99⟩]) := by
  obtain ⟨h1, h2, h3, h4, h5, h6⟩ := create_ops_sanitize_then_validate wClean dbForum wHdr wVerify
    1 ⟨1, "alice", "a.png"⟩ "post" "general" ⟨1, "General", "general", "General discussion"⟩
    1 ⟨1, 1, 1, "T1", "B1", 10⟩ 99 (by decide) (by decide) (by decide) (by decide)
  exact ⟨h1 "   " (by decide), h2 "   " "body" (by decide), h3 "   " (by decide),
    h4 "<script>x</script>Hello" (by decide), h5 "Title" "Body" (by decide) (by decide),
    h6 "Reply" (by decide)⟩

end Mikaana
